import Mathlib

/-!
Shallow Lean embedding of several Chromium glue fragments and proofs about
them: the skia platform-device metadata accessors, the JavaScript message-box
dialog button logic, the print helper's result and preview-state enumerations,
the tab-contents wrapper's infobar bookkeeping and message dispatch, and the
plugin IPC message schema.
-/

namespace skia

/-- Machine pointer values are modelled as natural numbers; `0` is `NULL`. -/
abbrev PtrVal := Nat

/-- The single metadata key used by the accessors (platform_device.cc). -/
def kDevicePlatformBehaviour : String := "CrDevicePlatformBehaviour"

/-- Modelled from the spec: Skia's `SkMetaData` (third-party, outside the
fragment set) is a key/value table; `setPtr` stores a pointer under a key,
replacing any previous entry, and `findPtr` looks a key up. -/
structure SkMetaData where
  entries : List (String × PtrVal)
deriving DecidableEq

/-- Modelled from the spec: `SkMetaData::setPtr` stores `v` under key `k`,
replacing any existing entry for `k`. -/
def SkMetaData.setPtr (m : SkMetaData) (k : String) (v : PtrVal) : SkMetaData :=
  ⟨(k, v) :: m.entries.filter (fun e => !(e.1 == k))⟩

/-- Modelled from the spec: `SkMetaData::findPtr` returns the pointer stored
under `k`, if any. -/
def SkMetaData.findPtr (m : SkMetaData) (k : String) : Option PtrVal :=
  (m.entries.find? (fun e => e.1 == k)).map (fun e => e.2)

/-- An `SkDevice` as the accessors see it: a carrier for its metadata. -/
structure SkDevice where
  metaData : SkMetaData
deriving DecidableEq

/-- skia::SetPlatformDevice (platform_device.cc): stores the platform
behaviour pointer in the device's metadata under `kDevicePlatformBehaviour`. -/
def SetPlatformDevice (device : SkDevice) (platformBehaviour : PtrVal) : SkDevice :=
  ⟨device.metaData.setPtr kDevicePlatformBehaviour platformBehaviour⟩

/-- skia::GetPlatformDevice (platform_device.cc): returns the stored pointer
if `findPtr` succeeds, and `NULL` (0) otherwise. -/
def GetPlatformDevice (device : SkDevice) : PtrVal :=
  match device.metaData.findPtr kDevicePlatformBehaviour with
  | some deviceBehaviour => deviceBehaviour
  | none => 0

end skia

namespace MessageBoxFlags

/-- Modelled from the spec: `MessageBoxFlags::kFlagHasOKButton` from
app/message_box_flags.h (outside the fragment set); a distinct single bit. -/
def kFlagHasOKButton : Nat := 1

/-- Modelled from the spec: `MessageBoxFlags::kFlagHasCancelButton`; a
distinct single bit. -/
def kFlagHasCancelButton : Nat := 2

/-- Modelled from the spec: `MessageBoxFlags::DIALOGBUTTON_NONE`. -/
def DIALOGBUTTON_NONE : Nat := 0

/-- Modelled from the spec: `MessageBoxFlags::DIALOGBUTTON_OK`. -/
def DIALOGBUTTON_OK : Nat := 1

/-- Modelled from the spec: `MessageBoxFlags::DIALOGBUTTON_CANCEL`. -/
def DIALOGBUTTON_CANCEL : Nat := 2

end MessageBoxFlags

namespace JavaScriptMessageBoxDialog

open MessageBoxFlags

/-- JavaScriptMessageBoxDialog::GetDefaultDialogButton
(jsmessage_box_dialog.cc, lines 68-76). `dialogFlags` stands for
`parent_->dialog_flags()`. -/
def GetDefaultDialogButton (dialogFlags : Nat) : Nat :=
  if dialogFlags &&& kFlagHasOKButton ≠ 0 then DIALOGBUTTON_OK
  else if dialogFlags &&& kFlagHasCancelButton ≠ 0 then DIALOGBUTTON_CANCEL
  else DIALOGBUTTON_NONE

/-- JavaScriptMessageBoxDialog::GetDialogButtons (jsmessage_box_dialog.cc,
lines 78-87): starts from 0, assigns OK when the OK flag is set, then ORs in
CANCEL when the cancel flag is set. -/
def GetDialogButtons (dialogFlags : Nat) : Nat :=
  let dialogButtons := if dialogFlags &&& kFlagHasOKButton ≠ 0 then DIALOGBUTTON_OK else 0
  if dialogFlags &&& kFlagHasCancelButton ≠ 0 then dialogButtons ||| DIALOGBUTTON_CANCEL
  else dialogButtons

/-- JavaScriptMessageBoxDialog::GetAppModalDialogButtons
(jsmessage_box_dialog.cc, lines 40-42): forwards to `GetDialogButtons`. -/
def GetAppModalDialogButtons (dialogFlags : Nat) : Nat :=
  GetDialogButtons dialogFlags

end JavaScriptMessageBoxDialog

/-- PrintWebViewHelper::PrintingResult (print_web_view_helper.h,
lines 144-149): the outcome classification passed to `DidFinishPrinting`. -/
inductive PrintingResult
  | OK
  | FAIL_PRINT
  | FAIL_PREVIEW
  | ABORT_PREVIEW
deriving DecidableEq

/-- PrintWebViewHelper::PrintPreviewContext::State (print_web_view_helper.h,
lines 334-339): the preview context's rendering state. -/
inductive PrintPreviewState
  | UNINITIALIZED
  | INITIALIZED
  | RENDERING
  | DONE
deriving DecidableEq

/-- Get-after-set through the device metadata returns the stored pointer. -/
lemma platform_device_get_set (dev : skia.SkDevice) (p : skia.PtrVal) :
    skia.GetPlatformDevice (skia.SetPlatformDevice dev p) = p := by
  simp [skia.GetPlatformDevice, skia.SetPlatformDevice, skia.SkMetaData.findPtr,
    skia.SkMetaData.setPtr, List.find?]

/-- C9: setting the platform device then reading it back yields the stored
pointer, and on a device whose metadata has no entry under the key, reading
yields NULL (0). -/
theorem claim_C9_platform_device_roundtrip (dev : skia.SkDevice) (p : skia.PtrVal) :
    skia.GetPlatformDevice (skia.SetPlatformDevice dev p) = p ∧
    (dev.metaData.findPtr skia.kDevicePlatformBehaviour = none →
      skia.GetPlatformDevice dev = 0) := by
  refine ⟨platform_device_get_set dev p, fun h => ?_⟩
  simp [skia.GetPlatformDevice, h]

/-- Witness for C9 at a fresh device and the pointer value 12. -/
theorem claim_C9_witness :
    skia.GetPlatformDevice (skia.SetPlatformDevice ⟨⟨[]⟩⟩ 12) = 12 ∧
    skia.GetPlatformDevice ⟨⟨[]⟩⟩ = 0 :=
  ⟨(claim_C9_platform_device_roundtrip ⟨⟨[]⟩⟩ 12).1,
   (claim_C9_platform_device_roundtrip ⟨⟨[]⟩⟩ 12).2 (by decide)⟩

/-- C8: `GetDialogButtons` is the bitwise OR of `DIALOGBUTTON_OK` (iff the OK
flag is set) and `DIALOGBUTTON_CANCEL` (iff the cancel flag is set);
`GetAppModalDialogButtons` returns the same value; `GetDefaultDialogButton`
is a button contained in that result whenever it is nonzero, preferring OK
over CANCEL, and `DIALOGBUTTON_NONE` otherwise. -/
theorem claim_C8_dialog_buttons (flags : Nat) :
    JavaScriptMessageBoxDialog.GetDialogButtons flags =
      ((if flags &&& MessageBoxFlags.kFlagHasOKButton ≠ 0
          then MessageBoxFlags.DIALOGBUTTON_OK else 0) |||
       (if flags &&& MessageBoxFlags.kFlagHasCancelButton ≠ 0
          then MessageBoxFlags.DIALOGBUTTON_CANCEL else 0)) ∧
    JavaScriptMessageBoxDialog.GetAppModalDialogButtons flags =
      JavaScriptMessageBoxDialog.GetDialogButtons flags ∧
    (JavaScriptMessageBoxDialog.GetDialogButtons flags ≠ 0 →
      JavaScriptMessageBoxDialog.GetDefaultDialogButton flags &&&
          JavaScriptMessageBoxDialog.GetDialogButtons flags =
        JavaScriptMessageBoxDialog.GetDefaultDialogButton flags ∧
      JavaScriptMessageBoxDialog.GetDefaultDialogButton flags ≠
        MessageBoxFlags.DIALOGBUTTON_NONE ∧
      (flags &&& MessageBoxFlags.kFlagHasOKButton ≠ 0 →
        JavaScriptMessageBoxDialog.GetDefaultDialogButton flags =
          MessageBoxFlags.DIALOGBUTTON_OK) ∧
      (flags &&& MessageBoxFlags.kFlagHasOKButton = 0 →
        JavaScriptMessageBoxDialog.GetDefaultDialogButton flags =
          MessageBoxFlags.DIALOGBUTTON_CANCEL)) ∧
    (JavaScriptMessageBoxDialog.GetDialogButtons flags = 0 →
      JavaScriptMessageBoxDialog.GetDefaultDialogButton flags =
        MessageBoxFlags.DIALOGBUTTON_NONE) := by
  by_cases h1 : flags &&& MessageBoxFlags.kFlagHasOKButton = 0 <;>
    by_cases h2 : flags &&& MessageBoxFlags.kFlagHasCancelButton = 0 <;>
      simp_all [JavaScriptMessageBoxDialog.GetDialogButtons,
        JavaScriptMessageBoxDialog.GetDefaultDialogButton,
        JavaScriptMessageBoxDialog.GetAppModalDialogButtons,
        MessageBoxFlags.kFlagHasOKButton, MessageBoxFlags.kFlagHasCancelButton,
        MessageBoxFlags.DIALOGBUTTON_OK, MessageBoxFlags.DIALOGBUTTON_CANCEL,
        MessageBoxFlags.DIALOGBUTTON_NONE]

/-- Witness for C8 at a cancel-only flag word. -/
theorem claim_C8_witness :
    JavaScriptMessageBoxDialog.GetDialogButtons 2 = 2 ∧
    JavaScriptMessageBoxDialog.GetAppModalDialogButtons 2 =
      JavaScriptMessageBoxDialog.GetDialogButtons 2 ∧
    JavaScriptMessageBoxDialog.GetDefaultDialogButton 2 =
      MessageBoxFlags.DIALOGBUTTON_CANCEL ∧
    JavaScriptMessageBoxDialog.GetDefaultDialogButton 2 &&&
        JavaScriptMessageBoxDialog.GetDialogButtons 2 =
      JavaScriptMessageBoxDialog.GetDefaultDialogButton 2 := by
  have h := claim_C8_dialog_buttons 2
  exact ⟨by decide, h.2.1, (h.2.2.1 (by decide)).2.2.2 (by decide),
    (h.2.2.1 (by decide)).1⟩

/-- C2 counterexample: the fragments do introduce an error classification of
their own. `PrintingResult` is declared by the print helper itself, and it
distinguishes two failure outcomes (`FAIL_PRINT` and `FAIL_PREVIEW`) as well
as an abort outcome, none of which is a propagated toolkit return code. -/
theorem claim_C2_counterexample :
    PrintingResult.FAIL_PRINT ≠ PrintingResult.OK ∧
    PrintingResult.FAIL_PREVIEW ≠ PrintingResult.OK ∧
    PrintingResult.ABORT_PREVIEW ≠ PrintingResult.OK ∧
    PrintingResult.FAIL_PRINT ≠ PrintingResult.FAIL_PREVIEW := by
  decide

/-- C2 amended: the fragments define exactly one small error taxonomy of
their own, the print helper's `PrintingResult`, with the four distinct
outcomes OK, FAIL_PRINT, FAIL_PREVIEW and ABORT_PREVIEW. -/
theorem claim_C2_amended (r : PrintingResult) :
    r ∈ [PrintingResult.OK, PrintingResult.FAIL_PRINT,
         PrintingResult.FAIL_PREVIEW, PrintingResult.ABORT_PREVIEW] ∧
    [PrintingResult.OK, PrintingResult.FAIL_PRINT,
     PrintingResult.FAIL_PREVIEW, PrintingResult.ABORT_PREVIEW].Nodup := by
  cases r <;> exact ⟨by decide, by decide⟩

/-- C4 counterexample: some fragment functions have results determined by
their explicit inputs alone; the skia accessors and the dialog-button
computations evaluate to definite results on concrete inputs with no host
framework present. -/
theorem claim_C4_counterexample :
    skia.GetPlatformDevice (skia.SetPlatformDevice ⟨⟨[]⟩⟩ 7) = 7 ∧
    skia.GetPlatformDevice ⟨⟨[]⟩⟩ = 0 ∧
    JavaScriptMessageBoxDialog.GetDialogButtons 18 = 2 ∧
    JavaScriptMessageBoxDialog.GetDefaultDialogButton 18 = 2 := by
  decide

/-- C4 amended: most fragments need their host frameworks, but the
dialog-button computations and the platform-device accessors are
self-contained: the button results depend only on the two button-flag bits
of the flag word, and the metadata accessors satisfy a get-after-set law. -/
theorem claim_C4_amended (flags : Nat) (dev : skia.SkDevice) (p : skia.PtrVal) :
    JavaScriptMessageBoxDialog.GetDialogButtons flags =
      JavaScriptMessageBoxDialog.GetDialogButtons
        (flags &&& (MessageBoxFlags.kFlagHasOKButton |||
                    MessageBoxFlags.kFlagHasCancelButton)) ∧
    JavaScriptMessageBoxDialog.GetDefaultDialogButton flags =
      JavaScriptMessageBoxDialog.GetDefaultDialogButton
        (flags &&& (MessageBoxFlags.kFlagHasOKButton |||
                    MessageBoxFlags.kFlagHasCancelButton)) ∧
    skia.GetPlatformDevice (skia.SetPlatformDevice dev p) = p := by
  refine ⟨?_, ?_, platform_device_get_set dev p⟩ <;>
    simp [JavaScriptMessageBoxDialog.GetDialogButtons,
      JavaScriptMessageBoxDialog.GetDefaultDialogButton,
      MessageBoxFlags.kFlagHasOKButton, MessageBoxFlags.kFlagHasCancelButton,
      Nat.and_assoc, show (3 : Nat) &&& 2 = 2 from rfl]

/-- InsecureContentInfoBarDelegate's infobar type
(insecure_content_infobar_delegate.h): `DISPLAY` for blocked displaying of
insecure content, `RUN` for blocked running of insecure content. -/
inductive InsecureContentType
  | DISPLAY
  | RUN
deriving DecidableEq

/-- An infobar delegate as the tab-contents wrapper sees it. The wrapper's
own code only distinguishes insecure-content delegates (through
`AsInsecureContentInfoBarDelegate`); the alert and protocol-handler
delegates it creates, and arbitrary delegates added by callers, carry their
identifying data only. -/
inductive InfoBarDelegate
  | insecureContent (t : InsecureContentType)
  | simpleAlert (messageId : String)
  | registerProtocolHandler (protocol : String)
  | other (id : Nat) (eqClass : Option Nat)
deriving DecidableEq

/-- InfoBarDelegate::AsInsecureContentInfoBarDelegate: non-null exactly on
insecure-content delegates. -/
def InfoBarDelegate.asInsecureContentInfoBarDelegate :
    InfoBarDelegate → Option InsecureContentType
  | .insecureContent t => some t
  | _ => none

/-- Modelled from the spec: `InfoBarDelegate::EqualsDelegate`
(infobar_delegate.h, outside the fragment set) defaults to returning false;
subclass overrides, which also live outside the fragments, are modelled by
the optional equality-class tag carried by `other` delegates. -/
def InfoBarDelegate.equalsDelegate : InfoBarDelegate → InfoBarDelegate → Bool
  | .other _ (some a), .other _ (some b) => a == b
  | _, _ => false

/-- The predicate the wrapper's loops test: does
`AsInsecureContentInfoBarDelegate` return non-null. -/
def isInsecureContentBar (d : InfoBarDelegate) : Bool :=
  d.asInsecureContentInfoBarDelegate.isSome

/-- The wrapper state the infobar operations touch: the `infobars_enabled_`
flag and the `infobars_` vector. -/
structure WrapperState where
  infobarsEnabled : Bool
  infobars : List InfoBarDelegate
deriving DecidableEq

/-- The state after the TabContentsWrapper constructor:
`infobars_enabled_(true)` and an empty infobar vector. -/
def initialWrapperState : WrapperState := ⟨true, []⟩

/-- `std::vector::insert(begin() + i, x)`: inserts `x` before position `i`
(at the end when `i` is at or past the end). -/
def vectorInsert {α : Type} : List α → Nat → α → List α
  | l, 0, x => x :: l
  | [], _ + 1, x => [x]
  | a :: l, n + 1, x => a :: vectorInsert l n x

/-- `std::vector::erase(begin() + i)`: removes the element at position `i`
(no effect when `i` is past the end). -/
def vectorErase {α : Type} : List α → Nat → List α
  | [], _ => []
  | _ :: l, 0 => l
  | a :: l, n + 1 => a :: vectorErase l n

/-- TabContentsWrapper::AddInfoBar (tab_contents_wrapper.cc): when infobars
are disabled the delegate is closed and dropped; when an existing delegate
reports `EqualsDelegate` on the new one, the new one is closed and dropped;
otherwise the delegate is appended and an added notification is sent. -/
def AddInfoBar (s : WrapperState) (delegate : InfoBarDelegate) : WrapperState :=
  if !s.infobarsEnabled then s
  else if s.infobars.any (fun e => e.equalsDelegate delegate) then s
  else { s with infobars := s.infobars ++ [delegate] }

/-- TabContentsWrapper::ReplaceInfoBar: when infobars are disabled this
behaves as `AddInfoBar`; otherwise the position `i` of the old delegate is
found, the new delegate is inserted at `i`, and the entry now at `i + 1`
(the old delegate) is erased. -/
def ReplaceInfoBar (s : WrapperState)
    (oldDelegate newDelegate : InfoBarDelegate) : WrapperState :=
  if !s.infobarsEnabled then AddInfoBar s newDelegate
  else
    let i := s.infobars.findIdx (fun e => e == oldDelegate)
    { s with infobars := vectorErase (vectorInsert s.infobars i newDelegate) (i + 1) }

/-- TabContentsWrapper::RemoveInfoBarInternal: no-op when infobars are
disabled (the vector is asserted empty); otherwise the delegate's position
is found and erased. The `animate` flag only affects the removal
notification, which is external. -/
def RemoveInfoBarInternal (s : WrapperState) (delegate : InfoBarDelegate)
    (_animate : Bool) : WrapperState :=
  if !s.infobarsEnabled then s
  else
    let i := s.infobars.findIdx (fun e => e == delegate)
    { s with infobars := vectorErase s.infobars i }

/-- TabContentsWrapper::RemoveInfoBar: forwards to `RemoveInfoBarInternal`
with animation. -/
def RemoveInfoBar (s : WrapperState) (delegate : InfoBarDelegate) : WrapperState :=
  RemoveInfoBarInternal s delegate true

/-- TabContentsWrapper::RemoveAllInfoBars: a loop removing the last infobar
until the vector is empty. When infobars are enabled each iteration removes
one entry, leaving the vector empty; when disabled the removals are no-ops
(and the vector is asserted empty), so the state is unchanged. -/
def RemoveAllInfoBars (s : WrapperState) (_animate : Bool) : WrapperState :=
  if s.infobarsEnabled then { s with infobars := [] } else s

/-- TabContentsWrapper::OnJSOutOfMemory: adds a simple alert infobar with
the out-of-memory prompt. -/
def OnJSOutOfMemory (s : WrapperState) : WrapperState :=
  AddInfoBar s (.simpleAlert ("IDS_JS_OUT_OF_MEMORY_PROMPT"))

/-- The external queries OnRegisterProtocolHandler makes of the profile, the
child-process security policy and the protocol-handler registry, all of
which live outside the fragment set. -/
structure BrowserEnv where
  offTheRecord : Bool
  isPseudoScheme : String → Bool
  isDisabledScheme : String → Bool
  registryEnabled : Bool
  isRegistered : String → Bool
  handlerIsEmpty : String → Bool
  canSchemeBeOverridden : String → Bool

/-- A concrete environment: a recording profile, no pseudo or disabled
schemes, an enabled registry with nothing registered, non-empty handlers,
every scheme overridable. -/
def trivialBrowserEnv : BrowserEnv :=
  ⟨false, fun _ => false, fun _ => false, true, fun _ => false,
   fun _ => false, fun _ => true⟩

/-- TabContentsWrapper::OnRegisterProtocolHandler: bails out off the record,
on pseudo or disabled schemes, on a disabled registry or an already
registered handler; otherwise adds a register-protocol-handler infobar for a
non-empty handler whose scheme can be overridden. -/
def OnRegisterProtocolHandler (env : BrowserEnv) (s : WrapperState)
    (protocol : String) : WrapperState :=
  if env.offTheRecord then s
  else if env.isPseudoScheme protocol || env.isDisabledScheme protocol then s
  else if !env.registryEnabled || env.isRegistered protocol then s
  else if !env.handlerIsEmpty protocol && env.canSchemeBeOverridden protocol then
    AddInfoBar s (.registerProtocolHandler protocol)
  else s

/-- TabContentsWrapper::OnSnapshot: only sends a snapshot-taken
notification; the wrapper state is unchanged. -/
def OnSnapshot (s : WrapperState) : WrapperState := s

/-- TabContentsWrapper::OnPDFHasUnsupportedFeature: forwards to the external
`PDFHasUnsupportedFeature`; the wrapper state is unchanged. -/
def OnPDFHasUnsupportedFeature (s : WrapperState) : WrapperState := s

/-- TabContentsWrapper::OnDidBlockDisplayingInsecureContent: if any
insecure-content infobar already exists the handler returns with no effect;
otherwise it adds a DISPLAY insecure-content infobar. -/
def OnDidBlockDisplayingInsecureContent (s : WrapperState) : WrapperState :=
  if s.infobars.any isInsecureContentBar then s
  else AddInfoBar s (.insecureContent .DISPLAY)

/-- TabContentsWrapper::OnDidBlockRunningInsecureContent: at the first
insecure-content infobar, if its type is not RUN it is replaced in place by
a RUN infobar, and the handler returns; if no insecure-content infobar
exists a RUN infobar is added. -/
def OnDidBlockRunningInsecureContent (s : WrapperState) : WrapperState :=
  match s.infobars.find? isInsecureContentBar with
  | some delegate =>
      if delegate.asInsecureContentInfoBarDelegate ≠ some .RUN then
        ReplaceInfoBar s delegate (.insecureContent .RUN)
      else s
  | none => AddInfoBar s (.insecureContent .RUN)

/-- The ViewHostMsg messages TabContentsWrapper::OnMessageReceived maps, plus
a stand-in for every unlisted message. -/
inductive ViewHostMsg
  | jsOutOfMemory
  | registerProtocolHandler (protocol : String)
  | snapshot
  | pdfHasUnsupportedFeature
  | didBlockDisplayingInsecureContent
  | didBlockRunningInsecureContent
  | unhandled (msgId : Nat)
deriving DecidableEq

/-- TabContentsWrapper::OnMessageReceived (tab_contents_wrapper.cc, lines
394-410): the IPC_BEGIN_MESSAGE_MAP routes each of six message types to its
handler and reports `handled = true`; every other message leaves the state
unchanged with `handled = false`. -/
def OnMessageReceived (env : BrowserEnv) (s : WrapperState) :
    ViewHostMsg → WrapperState × Bool
  | .jsOutOfMemory => (OnJSOutOfMemory s, true)
  | .registerProtocolHandler protocol => (OnRegisterProtocolHandler env s protocol, true)
  | .snapshot => (OnSnapshot s, true)
  | .pdfHasUnsupportedFeature => (OnPDFHasUnsupportedFeature s, true)
  | .didBlockDisplayingInsecureContent => (OnDidBlockDisplayingInsecureContent s, true)
  | .didBlockRunningInsecureContent => (OnDidBlockRunningInsecureContent s, true)
  | .unhandled _ => (s, false)

/-- Definition following the spec's words, for comparison with `AddInfoBar`:
a pass-through operation whose behaviour is a single forwarded external call
(the infobar-added notification), with no state-dependent branching of the
component's own. -/
def AddInfoBarPassThrough (s : WrapperState) (delegate : InfoBarDelegate) :
    WrapperState :=
  { s with infobars := s.infobars ++ [delegate] }

/-- The optional helpers of the TabContentsWrapper constructor: the
safe-browsing detection host (compile flag, preference and service), the
in-browser thumbnailing observer (command-line switch) and the omnibox
search hint (profile check). -/
structure TabHelperConfig where
  safeBrowsingActive : Bool
  inBrowserThumbnailingEnabled : Bool
  omniboxSearchHintEnabled : Bool

/-- The per-tab helper and observer objects the TabContentsWrapper
constructor creates (tab_contents_wrapper.cc, lines 118-161), in creation
order, as a function of the optional-feature configuration. -/
def tabHelpersCreated (c : TabHelperConfig) : List String :=
  ["autocomplete_history_manager",
   "autofill_manager",
   "automation_tab_helper",
   "blocked_content_tab_helper",
   "bookmark_tab_helper",
   "extension_tab_helper",
   "favicon_tab_helper",
   "find_tab_helper",
   "history_tab_helper",
   "restore_tab_helper",
   "password_manager_delegate",
   "password_manager"]
  ++ (if c.safeBrowsingActive then ["safebrowsing_detection_host"] else [])
  ++ ["search_engine_tab_helper",
      "ssl_helper",
      "content_settings",
      "translate_tab_helper",
      "print_view_manager",
      "external_protocol_observer",
      "file_select_observer",
      "plugin_observer",
      "prerender_observer",
      "print_preview",
      "webnavigation_observer"]
  ++ (if c.inBrowserThumbnailingEnabled then ["thumbnail_generation_observer"] else [])
  ++ (if c.omniboxSearchHintEnabled then ["omnibox_search_hint"] else [])

/-- C1 counterexample: `AddInfoBar` is not a pass-through to a single
forwarded external call. With infobars disabled the wrapper closes and drops
the delegate instead of forwarding it, so its behaviour differs from the
unconditional forwarding the spec describes. -/
theorem claim_C1_counterexample :
    AddInfoBar ⟨false, []⟩ (.simpleAlert ("IDS_JS_OUT_OF_MEMORY_PROMPT")) ≠
      AddInfoBarPassThrough ⟨false, []⟩ (.simpleAlert ("IDS_JS_OUT_OF_MEMORY_PROMPT")) := by
  decide

/-- C1 amended: the dialog, view host and animation wrappers are thin
adapters (for example `GetAppModalDialogButtons` forwards directly to
`GetDialogButtons`), but the tab aggregator is not: `AddInfoBar`'s effect
depends on the aggregator's own stored enabled flag, so the same call
behaves differently on different wrapper states; the print helper likewise
declares a four-state preview context of its own. -/
theorem claim_C1_amended (d : InfoBarDelegate) (flags : Nat) :
    (AddInfoBar ⟨false, []⟩ d).infobars = [] ∧
    (AddInfoBar ⟨true, []⟩ d).infobars = [d] ∧
    JavaScriptMessageBoxDialog.GetAppModalDialogButtons flags =
      JavaScriptMessageBoxDialog.GetDialogButtons flags ∧
    [PrintPreviewState.UNINITIALIZED, PrintPreviewState.INITIALIZED,
     PrintPreviewState.RENDERING, PrintPreviewState.DONE].Nodup :=
  ⟨rfl, rfl, rfl, by decide⟩

/-- C3 counterexample: the tab aggregator maintains state of its own design.
Adding an infobar changes the wrapper's own stored infobar list, which no
external API dictates. -/
theorem claim_C3_counterexample :
    AddInfoBar initialWrapperState (.simpleAlert ("IDS_JS_OUT_OF_MEMORY_PROMPT")) ≠
      initialWrapperState ∧
    (AddInfoBar initialWrapperState
        (.simpleAlert ("IDS_JS_OUT_OF_MEMORY_PROMPT"))).infobars ≠ [] := by
  decide

/-- C3 amended: most fields mirror external engine and toolkit APIs, but the
tab aggregator owns an infobar list of its own design, accumulating the
delegates added to it, and the print-preview context declares its own
four-state rendering field. -/
theorem claim_C3_amended (a b : Nat) :
    (AddInfoBar (AddInfoBar initialWrapperState (.other a none)) (.other b none)).infobars =
      [.other a none, .other b none] ∧
    [PrintPreviewState.UNINITIALIZED, PrintPreviewState.INITIALIZED,
     PrintPreviewState.RENDERING, PrintPreviewState.DONE].Nodup :=
  ⟨rfl, by decide⟩

/-- C6 counterexample: with the three optional helpers (safe-browsing
detection host, thumbnail generator, omnibox search hint) all disabled, the
constructor creates 23 helper objects, one short of two dozen. -/
theorem claim_C6_counterexample :
    (tabHelpersCreated ⟨false, false, false⟩).length = 23 ∧
    ¬ 24 ≤ (tabHelpersCreated ⟨false, false, false⟩).length := by
  decide

/-- C6 amended: the constructor wires together at least 23 per-tab helper
objects in every configuration, up to 26, always among them the autofill,
bookmark and translate helpers, and reaches two dozen whenever at least one
of the three optional helpers is active. -/
theorem claim_C6_amended (c : TabHelperConfig) :
    23 ≤ (tabHelpersCreated c).length ∧
    (tabHelpersCreated c).length ≤ 26 ∧
    "autofill_manager" ∈ tabHelpersCreated c ∧
    "bookmark_tab_helper" ∈ tabHelpersCreated c ∧
    "translate_tab_helper" ∈ tabHelpersCreated c ∧
    ((c.safeBrowsingActive = true ∨ c.inBrowserThumbnailingEnabled = true ∨
        c.omniboxSearchHintEnabled = true) →
      24 ≤ (tabHelpersCreated c).length) := by
  obtain ⟨x, y, z⟩ := c
  cases x <;> cases y <;> cases z <;> decide

/-- Witness for C6 amended: with the safe-browsing host active the
constructor reaches two dozen helpers. -/
theorem claim_C6_witness :
    24 ≤ (tabHelpersCreated ⟨true, false, false⟩).length :=
  (claim_C6_amended ⟨true, false, false⟩).2.2.2.2.2 (Or.inl rfl)

/-- Routing kind of an IPC message declaration: `IPC_MESSAGE_CONTROL*` or
`IPC_MESSAGE_ROUTED*` (and their `IPC_SYNC_` forms). -/
inductive MsgRouting
  | control
  | routed
deriving DecidableEq

/-- One entry of the declarative plugin IPC message schema
(plugin_messages_internal.h): a message name, its routing kind, whether it
is synchronous, its input and reply parameter type texts, and the platform
guard of the `#if` block it sits in, if any. -/
structure MessageDecl where
  name : String
  routing : MsgRouting
  sync : Bool
  inParams : List String
  outParams : List String
  platform : Option String
deriving DecidableEq

/-- The PluginProcess block (browser to plugin process). -/
def pluginProcessMessages : List MessageDecl :=
  [⟨"PluginProcessMsg_CreateChannel", .control, false, ["int", "bool"], [], none⟩,
   ⟨"PluginProcessMsg_PluginMessage", .control, false, ["std::vector<uint8>"], [], none⟩,
   ⟨"PluginProcessMsg_AskBeforeShutdown", .control, false, [], [], none⟩,
   ⟨"PluginProcessMsg_Shutdown", .control, false, [], [], none⟩,
   ⟨"PluginProcessMsg_SetIPCLoggingEnabled", .control, false, ["bool"], [],
     some ("IPC_MESSAGE_LOG_ENABLED")⟩,
   ⟨"PluginProcessMsg_PluginFocusNotify", .control, false, ["uint32"], [],
     some ("OS_MACOSX")⟩]

/-- The PluginProcessHost block (plugin process to browser). -/
def pluginProcessHostMessages : List MessageDecl :=
  [⟨"PluginProcessHostMsg_ChannelCreated", .control, false, ["IPC::ChannelHandle"], [], none⟩,
   ⟨"PluginProcessHostMsg_GetPluginFinderUrl", .control, true, [], ["std::string"], none⟩,
   ⟨"PluginProcessHostMsg_ShutdownRequest", .control, false, [], [], none⟩,
   ⟨"PluginProcessHostMsg_PluginMessage", .control, false, ["std::vector<uint8>"], [], none⟩,
   ⟨"PluginProcessHostMsg_PluginSyncMessage", .control, true, ["std::vector<uint8>"],
     ["std::vector<uint8>"], none⟩,
   ⟨"PluginProcessHostMsg_GetCookies", .control, true, ["int32", "GURL"],
     ["std::string"], none⟩,
   ⟨"PluginProcessHostMsg_AccessFiles", .control, true, ["int", "std::vector<std::string>"],
     ["bool"], none⟩,
   ⟨"PluginProcessHostMsg_ResolveProxy", .control, true, ["GURL"],
     ["int", "std::string"], none⟩,
   ⟨"PluginProcessHostMsg_CreateWindow", .control, true, ["HWND"], ["HWND"],
     some ("OS_WIN")⟩,
   ⟨"PluginProcessHostMsg_PluginWindowDestroyed", .control, false, ["HWND", "HWND"], [],
     some ("OS_WIN")⟩,
   ⟨"PluginProcessHostMsg_DownloadUrl", .routed, false, ["std::string", "int", "HWND"], [],
     some ("OS_WIN")⟩,
   ⟨"PluginProcessHostMsg_MapNativeViewId", .control, true, ["gfx::NativeViewId"],
     ["gfx::PluginWindowHandle"], some ("OS_LINUX")⟩,
   ⟨"PluginProcessHostMsg_PluginSelectWindow", .control, false,
     ["uint32", "gfx::Rect", "bool"], [], some ("OS_MACOSX")⟩,
   ⟨"PluginProcessHostMsg_PluginShowWindow", .control, false,
     ["uint32", "gfx::Rect", "bool"], [], some ("OS_MACOSX")⟩,
   ⟨"PluginProcessHostMsg_PluginHideWindow", .control, false,
     ["uint32", "gfx::Rect"], [], some ("OS_MACOSX")⟩,
   ⟨"PluginProcessHostMsg_PluginReceivedFocus", .control, false,
     ["uint32", "uint32"], [], some ("OS_MACOSX")⟩,
   ⟨"PluginProcessHostMsg_PluginSetCursorVisibility", .control, false,
     ["bool"], [], some ("OS_MACOSX")⟩]

/-- The Plugin block (renderer to plugin process). -/
def pluginMessages : List MessageDecl :=
  [⟨"PluginMsg_CreateInstance", .control, true, ["std::string"], ["int"], none⟩,
   ⟨"PluginMsg_DestroyInstance", .control, true, ["int"], [], none⟩,
   ⟨"PluginMsg_GenerateRouteID", .control, true, [], ["int"], none⟩,
   ⟨"PluginMsg_Init", .routed, true, ["PluginMsg_Init_Params"], ["bool"], none⟩,
   ⟨"PluginMsg_Paint", .routed, true, ["gfx::Rect"], [], none⟩,
   ⟨"PluginMsg_DidPaint", .routed, false, [], [], none⟩,
   ⟨"PluginMsg_Print", .routed, true, [], ["base::SharedMemoryHandle", "size_t"], none⟩,
   ⟨"PluginMsg_GetPluginScriptableObject", .routed, true, [], ["int"], none⟩,
   ⟨"PluginMsg_DidFinishLoadWithReason", .routed, false, ["GURL", "int", "int"], [], none⟩,
   ⟨"PluginMsg_UpdateGeometry", .routed, false, ["PluginMsg_UpdateGeometry_Param"], [], none⟩,
   ⟨"PluginMsg_UpdateGeometrySync", .routed, true, ["PluginMsg_UpdateGeometry_Param"], [], none⟩,
   ⟨"PluginMsg_SetFocus", .routed, true, [], [], none⟩,
   ⟨"PluginMsg_HandleInputEvent", .routed, true, ["IPC::WebInputEventPointer"],
     ["bool", "WebCursor"], none⟩,
   ⟨"PluginMsg_SetWindowFocus", .routed, false, ["bool"], [], some ("OS_MACOSX")⟩,
   ⟨"PluginMsg_SetContainerVisibility", .routed, false, ["bool"], [], some ("OS_MACOSX")⟩,
   ⟨"PluginMsg_WillSendRequest", .routed, true, ["unsigned long", "GURL"], [], none⟩,
   ⟨"PluginMsg_DidReceiveResponse", .routed, false,
     ["PluginMsg_DidReceiveResponseParams"], [], none⟩,
   ⟨"PluginMsg_DidReceiveData", .routed, false,
     ["unsigned long", "std::vector<char>", "int"], [], none⟩,
   ⟨"PluginMsg_DidFinishLoading", .routed, false, ["unsigned long"], [], none⟩,
   ⟨"PluginMsg_DidFail", .routed, false, ["unsigned long"], [], none⟩,
   ⟨"PluginMsg_SendJavaScriptStream", .routed, false,
     ["GURL", "std::string", "bool", "int"], [], none⟩,
   ⟨"PluginMsg_DidReceiveManualResponse", .routed, false,
     ["GURL", "PluginMsg_DidReceiveResponseParams"], [], none⟩,
   ⟨"PluginMsg_DidReceiveManualData", .routed, false, ["std::vector<char>"], [], none⟩,
   ⟨"PluginMsg_DidFinishManualLoading", .routed, false, [], [], none⟩,
   ⟨"PluginMsg_DidManualLoadFail", .routed, false, [], [], none⟩,
   ⟨"PluginMsg_InstallMissingPlugin", .routed, false, [], [], none⟩,
   ⟨"PluginMsg_HandleURLRequestReply", .routed, false,
     ["unsigned long", "GURL", "int"], [], none⟩,
   ⟨"PluginMsg_HTTPRangeRequestReply", .routed, false, ["unsigned long", "int"], [], none⟩,
   ⟨"PluginMsg_CreateCommandBuffer", .routed, true, [], ["int"], none⟩,
   ⟨"PluginMsg_SignalModalDialogEvent", .control, false, ["gfx::NativeViewId"], [], none⟩,
   ⟨"PluginMsg_ResetModalDialogEvent", .control, false, ["gfx::NativeViewId"], [], none⟩,
   ⟨"PluginMsg_SetFakeGPUPluginWindowHandle", .routed, false,
     ["gfx::PluginWindowHandle"], [], some ("OS_MACOSX")⟩]

/-- The PluginHost block (plugin process to renderer). -/
def pluginHostMessages : List MessageDecl :=
  [⟨"PluginHostMsg_SetWindow", .routed, true, ["gfx::PluginWindowHandle"], [], none⟩,
   ⟨"PluginHostMsg_SetWindowlessPumpEvent", .routed, true, ["HANDLE"], [],
     some ("OS_WIN")⟩,
   ⟨"PluginHostMsg_URLRequest", .routed, false, ["PluginHostMsg_URLRequest_Params"], [], none⟩,
   ⟨"PluginHostMsg_CancelResource", .routed, false, ["int"], [], none⟩,
   ⟨"PluginHostMsg_InvalidateRect", .routed, false, ["gfx::Rect"], [], none⟩,
   ⟨"PluginHostMsg_GetWindowScriptNPObject", .routed, true, ["int"], ["bool"], none⟩,
   ⟨"PluginHostMsg_GetPluginElement", .routed, true, ["int"], ["bool"], none⟩,
   ⟨"PluginHostMsg_SetCookie", .routed, false, ["GURL", "GURL", "std::string"], [], none⟩,
   ⟨"PluginHostMsg_GetCookies", .routed, true, ["GURL", "GURL"], ["std::string"], none⟩,
   ⟨"PluginHostMsg_ShowModalHTMLDialog", .routed, true,
     ["GURL", "int", "int", "std::string"], ["std::string"], none⟩,
   ⟨"PluginHostMsg_GetDragData", .routed, true, ["NPVariant_Param", "bool"],
     ["std::vector<NPVariant_Param>", "bool"], none⟩,
   ⟨"PluginHostMsg_SetDropEffect", .routed, true, ["NPVariant_Param", "int"],
     ["bool"], none⟩,
   ⟨"PluginHostMsg_MissingPluginStatus", .routed, false, ["int"], [], none⟩,
   ⟨"PluginHostMsg_GetCPBrowsingContext", .routed, true, [], ["uint32"], none⟩,
   ⟨"PluginHostMsg_CancelDocumentLoad", .routed, false, [], [], none⟩,
   ⟨"PluginHostMsg_InitiateHTTPRangeRequest", .routed, false,
     ["std::string", "std::string", "int"], [], none⟩,
   ⟨"PluginHostMsg_DeferResourceLoading", .routed, false,
     ["unsigned long", "bool"], [], none⟩,
   ⟨"PluginHostMsg_SetException", .control, true, ["std::string"], [], none⟩,
   ⟨"PluginHostMsg_UpdateGeometry_ACK", .routed, false, ["int"], [],
     some ("OS_MACOSX")⟩,
   ⟨"PluginHostMsg_GPUPluginSetIOSurface", .routed, false,
     ["gfx::PluginWindowHandle", "int32", "int32", "uint64"], [], some ("OS_MACOSX")⟩,
   ⟨"PluginHostMsg_GPUPluginBuffersSwapped", .routed, false,
     ["gfx::PluginWindowHandle"], [], some ("OS_MACOSX")⟩]

/-- The NPObject block (both directions between renderer and plugin). -/
def npObjectMessages : List MessageDecl :=
  [⟨"NPObjectMsg_Release", .routed, true, [], [], none⟩,
   ⟨"NPObjectMsg_HasMethod", .routed, true, ["NPIdentifier_Param"], ["bool"], none⟩,
   ⟨"NPObjectMsg_Invoke", .routed, true,
     ["bool", "NPIdentifier_Param", "std::vector<NPVariant_Param>"],
     ["NPVariant_Param", "bool"], none⟩,
   ⟨"NPObjectMsg_HasProperty", .routed, true, ["NPIdentifier_Param"], ["bool"], none⟩,
   ⟨"NPObjectMsg_GetProperty", .routed, true, ["NPIdentifier_Param"],
     ["NPVariant_Param", "bool"], none⟩,
   ⟨"NPObjectMsg_SetProperty", .routed, true,
     ["NPIdentifier_Param", "NPVariant_Param"], ["bool"], none⟩,
   ⟨"NPObjectMsg_RemoveProperty", .routed, true, ["NPIdentifier_Param"], ["bool"], none⟩,
   ⟨"NPObjectMsg_Invalidate", .routed, true, [], [], none⟩,
   ⟨"NPObjectMsg_Enumeration", .routed, true, [],
     ["std::vector<NPIdentifier_Param>", "bool"], none⟩,
   ⟨"NPObjectMsg_Construct", .routed, true, ["std::vector<NPVariant_Param>"],
     ["NPVariant_Param", "bool"], none⟩,
   ⟨"NPObjectMsg_Evaluate", .routed, true, ["std::string", "bool"],
     ["NPVariant_Param", "bool"], none⟩]

/-- The names declared by the full plugin IPC schema, in file order. -/
def pluginIPCSchemaNames : List String :=
  (pluginProcessMessages ++ pluginProcessHostMessages ++ pluginMessages ++
    pluginHostMessages ++ npObjectMessages).map (fun d => d.name)

/-- C5 counterexample: a file of the fragment set does implement message
dispatch. The tab aggregator's `OnMessageReceived` routes an insecure-content
message to its handler (mutating the wrapper and reporting it handled) while
leaving unlisted messages untouched and unhandled. -/
theorem claim_C5_counterexample :
    (OnMessageReceived trivialBrowserEnv initialWrapperState
        .didBlockRunningInsecureContent).2 = true ∧
    (OnMessageReceived trivialBrowserEnv initialWrapperState
        .didBlockRunningInsecureContent).1.infobars = [.insecureContent .RUN] ∧
    (OnMessageReceived trivialBrowserEnv initialWrapperState (.unhandled 9999)).2 = false ∧
    (OnMessageReceived trivialBrowserEnv initialWrapperState (.unhandled 9999)).1 =
      initialWrapperState := by
  decide

/-- C5 amended: the plugin IPC message definitions are indeed a purely
declarative schema (distinct names with routing kinds and parameter types),
and the channel and serialization machinery is outside the fragments; but
the tab aggregator's `OnMessageReceived` does implement per-class message
dispatch, routing six ViewHostMsg types to handlers and reporting every
other message unhandled with the state unchanged. -/
theorem claim_C5_amended (env : BrowserEnv) (s : WrapperState)
    (protocol : String) (msgId : Nat) :
    (OnMessageReceived env s .jsOutOfMemory).2 = true ∧
    (OnMessageReceived env s (.registerProtocolHandler protocol)).2 = true ∧
    (OnMessageReceived env s .snapshot).2 = true ∧
    (OnMessageReceived env s .pdfHasUnsupportedFeature).2 = true ∧
    (OnMessageReceived env s .didBlockDisplayingInsecureContent).2 = true ∧
    (OnMessageReceived env s .didBlockRunningInsecureContent).2 = true ∧
    OnMessageReceived env s (.unhandled msgId) = (s, false) ∧
    pluginIPCSchemaNames.Nodup :=
  ⟨rfl, rfl, rfl, rfl, rfl, rfl, rfl, by decide⟩

/-- The number of insecure-content infobars in an infobar list. -/
def insecureContentBarCount (l : List InfoBarDelegate) : Nat :=
  l.countP isInsecureContentBar

/-- One step of the tab-contents wrapper's infobar bookkeeping, as the
operations of tab_contents_wrapper.cc invoke it: the two blocked-content
handlers, the two infobar-adding handlers, `AddInfoBar` from any caller with
a non-insecure-content delegate (the wrapper itself creates insecure-content
delegates only inside the two blocked-content handlers), and removals. -/
inductive InfoBarStep : WrapperState → WrapperState → Prop
  | didBlockDisplaying (s : WrapperState) :
      InfoBarStep s (OnDidBlockDisplayingInsecureContent s)
  | didBlockRunning (s : WrapperState) :
      InfoBarStep s (OnDidBlockRunningInsecureContent s)
  | jsOutOfMemory (s : WrapperState) : InfoBarStep s (OnJSOutOfMemory s)
  | registerProtocolHandler (env : BrowserEnv) (s : WrapperState) (protocol : String) :
      InfoBarStep s (OnRegisterProtocolHandler env s protocol)
  | addNonInsecure (s : WrapperState) (d : InfoBarDelegate)
      (hd : isInsecureContentBar d = false) : InfoBarStep s (AddInfoBar s d)
  | removeBar (s : WrapperState) (d : InfoBarDelegate) (animate : Bool) :
      InfoBarStep s (RemoveInfoBarInternal s d animate)
  | removeAll (s : WrapperState) (animate : Bool) :
      InfoBarStep s (RemoveAllInfoBars s animate)

/-- A wrapper state reachable from the constructor's state by the wrapper's
infobar operations. -/
def ReachableWrapperState (s : WrapperState) : Prop :=
  Relation.ReflTransGen InfoBarStep initialWrapperState s

/-- The invariant the infobar operations maintain: infobars stay enabled and
at most one insecure-content infobar is present. -/
def WrapperInv (s : WrapperState) : Prop :=
  s.infobarsEnabled = true ∧ insecureContentBarCount s.infobars ≤ 1

lemma equalsDelegate_insecure_right (e : InfoBarDelegate) (t : InsecureContentType) :
    e.equalsDelegate (.insecureContent t) = false := by
  cases e with
  | insecureContent u => rfl
  | simpleAlert m => rfl
  | registerProtocolHandler p => rfl
  | other id eqc => cases eqc <;> rfl

lemma any_equalsDelegate_insecure (l : List InfoBarDelegate) (t : InsecureContentType) :
    (l.any fun e => e.equalsDelegate (.insecureContent t)) = false := by
  induction l with
  | nil => rfl
  | cons a l ih => simp [List.any_cons, equalsDelegate_insecure_right, ih]

lemma countP_eq_zero_of_any_eq_false {α : Type} {p : α → Bool} :
    ∀ {l : List α}, l.any p = false → l.countP p = 0 := by
  intro l
  induction l with
  | nil => intro _; simp
  | cons a l ih =>
    intro h
    simp only [List.any_cons, Bool.or_eq_false_iff] at h
    simp [List.countP_cons, h.1, ih h.2]

lemma one_le_countP_of_mem {α : Type} {p : α → Bool} {x : α} (hx : p x = true)
    {l : List α} (hm : x ∈ l) : 1 ≤ l.countP p :=
  List.countP_pos_iff.mpr ⟨x, hm, hx⟩

lemma find?_eq_of_countP_le_one {α : Type} {p : α → Bool} {x : α} (hx : p x = true) :
    ∀ {l : List α}, l.countP p ≤ 1 → x ∈ l → l.find? p = some x := by
  intro l
  induction l with
  | nil => intro _ h; cases h
  | cons a l ih =>
    intro hc hm
    rcases List.mem_cons.mp hm with rfl | h2
    · exact List.find?_cons_of_pos _ hx
    · cases hpa : p a with
      | true =>
        exfalso
        have h1 := one_le_countP_of_mem hx h2
        rw [List.countP_cons, hpa, if_pos rfl] at hc
        omega
      | false =>
        rw [List.find?_cons_of_neg _ (by simp [hpa])]
        apply ih _ h2
        rw [List.countP_cons, hpa] at hc
        simpa using hc

lemma countP_vectorErase_le {α : Type} (p : α → Bool) :
    ∀ (l : List α) (i : Nat), (vectorErase l i).countP p ≤ l.countP p := by
  intro l
  induction l with
  | nil => intro i; simp [vectorErase]
  | cons a l ih =>
    intro i
    cases i with
    | zero =>
      rw [vectorErase, List.countP_cons]
      omega
    | succ n =>
      have h := ih n
      rw [vectorErase, List.countP_cons, List.countP_cons]
      omega

lemma countP_set_of_true {α : Type} {p : α → Bool} :
    ∀ (l : List α) (i : Nat) (x : α) (hi : i < l.length),
      p (l.get ⟨i, hi⟩) = true → p x = true →
      (l.set i x).countP p = l.countP p := by
  intro l
  induction l with
  | nil => intro i x hi; simp at hi
  | cons a l ih =>
    intro i x hi hpi hpx
    cases i with
    | zero =>
      have hpa : p a = true := hpi
      rw [List.set, List.countP_cons, List.countP_cons, hpa, hpx]
    | succ n =>
      have hn : n < l.length := Nat.lt_of_succ_lt_succ hi
      have hpn : p (l.get ⟨n, hn⟩) = true := by simpa using hpi
      rw [List.set, List.countP_cons, List.countP_cons, ih n x hn hpn hpx]

lemma countP_le_one_index_unique {α : Type} {p : α → Bool} :
    ∀ (l : List α) (i j : Nat) (hi : i < l.length) (hj : j < l.length),
      l.countP p ≤ 1 → p (l.get ⟨i, hi⟩) = true → p (l.get ⟨j, hj⟩) = true →
      i = j := by
  intro l
  induction l with
  | nil => intro i j hi _ _ _ _; simp at hi
  | cons a l ih =>
    intro i j hi hj hc hpi hpj
    cases i with
    | zero =>
      cases j with
      | zero => rfl
      | succ m =>
        exfalso
        have hpa : p a = true := hpi
        have h1 : 1 ≤ l.countP p :=
          one_le_countP_of_mem (by simpa using hpj)
            (List.get_mem l m (Nat.lt_of_succ_lt_succ hj))
        rw [List.countP_cons, hpa, if_pos rfl] at hc
        omega
    | succ n =>
      cases j with
      | zero =>
        exfalso
        have hpa : p a = true := hpj
        have h1 : 1 ≤ l.countP p :=
          one_le_countP_of_mem (by simpa using hpi)
            (List.get_mem l n (Nat.lt_of_succ_lt_succ hi))
        rw [List.countP_cons, hpa, if_pos rfl] at hc
        omega
      | succ m =>
        have hc' : l.countP p ≤ 1 := by
          rw [List.countP_cons] at hc
          omega
        have := ih n m (Nat.lt_of_succ_lt_succ hi) (Nat.lt_of_succ_lt_succ hj)
          hc' (by simpa using hpi) (by simpa using hpj)
        omega

lemma vectorErase_vectorInsert {α : Type} :
    ∀ (l : List α) (i : Nat) (x : α), i < l.length →
      vectorErase (vectorInsert l i x) (i + 1) = l.set i x := by
  intro l
  induction l with
  | nil => intro i x hi; simp at hi
  | cons a l ih =>
    intro i x hi
    cases i with
    | zero => rfl
    | succ n =>
      have h := ih n x (Nat.lt_of_succ_lt_succ hi)
      rw [vectorInsert, vectorErase, List.set, h]

lemma findIdx_replace {α : Type} [DecidableEq α] :
    ∀ (l : List α) (old x : α), old ∈ l →
      ∃ i, ∃ hi : i < l.length, l.get ⟨i, hi⟩ = old ∧
        vectorErase (vectorInsert l (l.findIdx fun e => e == old) x)
          ((l.findIdx fun e => e == old) + 1) = l.set i x := by
  intro l
  induction l with
  | nil => intro old x h; cases h
  | cons a l ih =>
    intro old x hm
    cases hae : (a == old) with
    | true =>
      have hfi : ((a :: l).findIdx fun e => e == old) = 0 := by
        simp [List.findIdx_cons, hae]
      refine ⟨0, Nat.succ_pos _, ?_, ?_⟩
      · simpa using eq_of_beq hae
      · rw [hfi]; rfl
    | false =>
      have hm' : old ∈ l := by
        rcases List.mem_cons.mp hm with rfl | h2
        · simp at hae
        · exact h2
      obtain ⟨i, hi, hget, heq⟩ := ih old x hm'
      have hfi : ((a :: l).findIdx fun e => e == old) =
          (l.findIdx fun e => e == old) + 1 := by
        simp [List.findIdx_cons, hae]
      refine ⟨i + 1, Nat.succ_lt_succ hi, by simpa using hget, ?_⟩
      rw [hfi]
      simp only [vectorInsert, vectorErase, List.set]
      rw [heq]

lemma ReplaceInfoBar_spec (s : WrapperState) (old newD : InfoBarDelegate)
    (he : s.infobarsEnabled = true) (hm : old ∈ s.infobars) :
    ∃ i, ∃ hi : i < s.infobars.length,
      s.infobars.get ⟨i, hi⟩ = old ∧
      (ReplaceInfoBar s old newD).infobars = s.infobars.set i newD ∧
      (ReplaceInfoBar s old newD).infobarsEnabled = true := by
  obtain ⟨i, hi, hget, heq⟩ := findIdx_replace s.infobars old newD hm
  exact ⟨i, hi, hget, by simp [ReplaceInfoBar, he, heq], by simp [ReplaceInfoBar, he]⟩

lemma AddInfoBar_infobarsEnabled (s : WrapperState) (d : InfoBarDelegate) :
    (AddInfoBar s d).infobarsEnabled = s.infobarsEnabled := by
  unfold AddInfoBar
  split
  · rfl
  · split
    · rfl
    · rfl

lemma AddInfoBar_insecure_eq (s : WrapperState) (t : InsecureContentType)
    (he : s.infobarsEnabled = true) :
    AddInfoBar s (.insecureContent t) =
      { s with infobars := s.infobars ++ [.insecureContent t] } := by
  simp [AddInfoBar, he, any_equalsDelegate_insecure]

lemma WrapperInv_AddInfoBar_nonInsecure (s : WrapperState) (d : InfoBarDelegate)
    (hd : isInsecureContentBar d = false) (h : WrapperInv s) :
    WrapperInv (AddInfoBar s d) := by
  obtain ⟨he, hc⟩ := h
  refine ⟨by rw [AddInfoBar_infobarsEnabled]; exact he, ?_⟩
  unfold AddInfoBar
  split
  · exact hc
  · split
    · exact hc
    · show insecureContentBarCount (s.infobars ++ [d]) ≤ 1
      unfold insecureContentBarCount at hc ⊢
      rw [List.countP_append]
      have hd0 : List.countP isInsecureContentBar [d] = 0 := by
        simp [List.countP_cons, hd]
      omega

lemma infoBarStep_preserves {s s' : WrapperState} (hstep : InfoBarStep s s')
    (h : WrapperInv s) : WrapperInv s' := by
  obtain ⟨he, hc⟩ := h
  cases hstep with
  | didBlockDisplaying s =>
    unfold OnDidBlockDisplayingInsecureContent
    split
    case isTrue => exact ⟨he, hc⟩
    case isFalse hany =>
      rw [AddInfoBar_insecure_eq s _ he]
      refine ⟨he, ?_⟩
      have h0 : List.countP isInsecureContentBar s.infobars = 0 :=
        countP_eq_zero_of_any_eq_false (by simpa using hany)
      simp [insecureContentBarCount, List.countP_append, h0, List.countP_cons,
        isInsecureContentBar, InfoBarDelegate.asInsecureContentInfoBarDelegate]
  | didBlockRunning s =>
    rcases hfind : s.infobars.find? isInsecureContentBar with _ | d
    · simp only [OnDidBlockRunningInsecureContent, hfind]
      rw [AddInfoBar_insecure_eq s _ he]
      refine ⟨he, ?_⟩
      have h0 : List.countP isInsecureContentBar s.infobars = 0 :=
        countP_eq_zero_of_any_eq_false
          (List.any_eq_false.mpr (by simpa using List.find?_eq_none.mp hfind))
      simp [insecureContentBarCount, List.countP_append, h0, List.countP_cons,
        isInsecureContentBar, InfoBarDelegate.asInsecureContentInfoBarDelegate]
    · simp only [OnDidBlockRunningInsecureContent, hfind]
      have hpd : isInsecureContentBar d = true := List.find?_some hfind
      have hmem : d ∈ s.infobars := List.mem_of_find?_eq_some hfind
      split
      case isTrue hne =>
        obtain ⟨i, hi, hget, heq, hen⟩ :=
          ReplaceInfoBar_spec s d (.insecureContent .RUN) he hmem
        refine ⟨hen, ?_⟩
        rw [heq]
        unfold insecureContentBarCount at hc ⊢
        rw [countP_set_of_true s.infobars i _ hi (by rw [hget]; exact hpd) rfl]
        exact hc
      case isFalse => exact ⟨he, hc⟩
  | jsOutOfMemory s =>
    exact WrapperInv_AddInfoBar_nonInsecure s _ rfl ⟨he, hc⟩
  | registerProtocolHandler env s protocol =>
    unfold OnRegisterProtocolHandler
    split
    · exact ⟨he, hc⟩
    · split
      · exact ⟨he, hc⟩
      · split
        · exact ⟨he, hc⟩
        · split
          · exact WrapperInv_AddInfoBar_nonInsecure s _ rfl ⟨he, hc⟩
          · exact ⟨he, hc⟩
  | addNonInsecure s d hd =>
    exact WrapperInv_AddInfoBar_nonInsecure s d hd ⟨he, hc⟩
  | removeBar s d animate =>
    unfold RemoveInfoBarInternal
    split
    · exact ⟨he, hc⟩
    · exact ⟨he, le_trans (countP_vectorErase_le isInsecureContentBar s.infobars _) hc⟩
  | removeAll s animate =>
    have hall : RemoveAllInfoBars s animate = { s with infobars := [] } := by
      simp [RemoveAllInfoBars, he]
    rw [hall]
    exact ⟨he, by simp [insecureContentBarCount]⟩

lemma reachable_inv (s : WrapperState) (h : ReachableWrapperState s) : WrapperInv s := by
  unfold ReachableWrapperState at h
  induction h with
  | refl => exact ⟨rfl, by simp [insecureContentBarCount, initialWrapperState]⟩
  | tail _ hstep ih => exact infoBarStep_preserves hstep ih

/-- C7: in every reachable wrapper state, at most one insecure-content
infobar is present; `OnDidBlockDisplayingInsecureContent` is a no-op
whenever any insecure-content infobar exists; once a RUN insecure-content
infobar is present, `OnDidBlockRunningInsecureContent` is a no-op (so the
handlers never downgrade it to DISPLAY); and when a DISPLAY insecure-content
infobar sits at position `i`, `OnDidBlockRunningInsecureContent` upgrades it
in place to RUN rather than adding a second bar. -/
theorem claim_C7_insecure_infobar_invariant (s : WrapperState) (i : Nat)
    (h : ReachableWrapperState s) :
    insecureContentBarCount s.infobars ≤ 1 ∧
    (s.infobars.any isInsecureContentBar = true →
      OnDidBlockDisplayingInsecureContent s = s) ∧
    (InfoBarDelegate.insecureContent .RUN ∈ s.infobars →
      OnDidBlockRunningInsecureContent s = s) ∧
    (s.infobars.getD i (.other 0 none) = .insecureContent .DISPLAY →
      (OnDidBlockRunningInsecureContent s).infobars =
        s.infobars.set i (.insecureContent .RUN)) := by
  obtain ⟨he, hc⟩ := reachable_inv s h
  refine ⟨hc, ?_, ?_, ?_⟩
  · intro hany
    simp [OnDidBlockDisplayingInsecureContent, hany]
  · intro hmem
    have hfind : s.infobars.find? isInsecureContentBar =
        some (.insecureContent .RUN) :=
      find?_eq_of_countP_le_one rfl hc hmem
    simp [OnDidBlockRunningInsecureContent, hfind,
      InfoBarDelegate.asInsecureContentInfoBarDelegate]
  · intro hgetD
    have hi : i < s.infobars.length := by
      by_contra hge
      push_neg at hge
      rw [List.getD_eq_getElem?_getD, List.getElem?_eq_none hge,
        Option.getD_none] at hgetD
      exact absurd hgetD (by decide)
    have hget : s.infobars.get ⟨i, hi⟩ = .insecureContent .DISPLAY := by
      rw [List.getD_eq_getElem?_getD, List.getElem?_eq_getElem hi,
        Option.getD_some] at hgetD
      simpa using hgetD
    have hmem : (InfoBarDelegate.insecureContent .DISPLAY) ∈ s.infobars :=
      hget ▸ List.get_mem s.infobars i hi
    have hfind : s.infobars.find? isInsecureContentBar =
        some (.insecureContent .DISPLAY) :=
      find?_eq_of_countP_le_one rfl hc hmem
    simp only [OnDidBlockRunningInsecureContent, hfind]
    rw [if_pos (by decide)]
    obtain ⟨j, hj, hgetj, heq, _⟩ :=
      ReplaceInfoBar_spec s (.insecureContent .DISPLAY) (.insecureContent .RUN) he hmem
    have hji : j = i :=
      countP_le_one_index_unique s.infobars j i hj hi hc
        (by rw [hgetj]; rfl) (by rw [hget]; rfl)
    rw [heq, hji]

/-- Witness for C7 at the reachable state holding one DISPLAY
insecure-content infobar: the count is at most one, and the blocked-running
handler upgrades the bar in place to RUN. -/
theorem claim_C7_witness :
    ReachableWrapperState ⟨true, [.insecureContent .DISPLAY]⟩ ∧
    insecureContentBarCount [InfoBarDelegate.insecureContent .DISPLAY] ≤ 1 ∧
    (OnDidBlockRunningInsecureContent ⟨true, [.insecureContent .DISPLAY]⟩).infobars =
      [.insecureContent .RUN] := by
  have hr : ReachableWrapperState ⟨true, [.insecureContent .DISPLAY]⟩ :=
    Relation.ReflTransGen.single (InfoBarStep.didBlockDisplaying initialWrapperState)
  have h := claim_C7_insecure_infobar_invariant ⟨true, [.insecureContent .DISPLAY]⟩ 0 hr
  refine ⟨hr, h.1, ?_⟩
  rw [h.2.2.2 (by decide)]
  rfl
